import Mathlib

/-!
Verification development for the AEP dynamic-grid analysis repository.

The Python sources (`source/network.py`, `source/contingency.py`,
`app/app.py`) are shallowly embedded below.  Pandas rows become Lean
structures, in-place row mutation becomes functional record update,
Python floats become exact rationals (`ℚ`), and raisable code returns
`Except PyError`.  The IEEE-738 thermal model (`source/ieee738.py`) and
the load-shaping constants of `source/config.py` are not part of the
sources; they enter only as abstract parameters (`RatingModel`,
`LoadCfg`, `MathEnv`), which is sufficient because no claim below
depends on their concrete values.
-/

namespace AepGrid

/-- Python exceptions observable in the embedded fragment.  `typeError` is
the context-free `TypeError: 'NoneType' object is not subscriptable`
raised when a `None` lookup result is indexed; `attributeError` carries
the missing attribute's name; `lookupError` is the contextual lookup
failure that the specification describes — the embedded code never
constructs it, it exists so that theorems can state what the code does
not raise. -/
inductive PyError where
  | typeError
  | assertionError
  | attributeError (attr : String)
  | lookupError (context : String)
  | solverError (msg : String)
  deriving Repr, DecidableEq

/-- Row of `conductor_library.csv` as read by `Conductors.__init__`. -/
structure LibRow where
  conductorName : String
  cdrad_in : ℚ
  res_25c : ℚ
  res_50c : ℚ
  deriving Repr, DecidableEq

/-- Row of `conductor_ratings.csv` as read by `Conductors.__init__`. -/
structure RatRow where
  conductorName : String
  mot : ℚ
  ratingMVA_69 : ℚ
  ratingMVA_138 : ℚ
  deriving Repr, DecidableEq

/-- Embeds class `Conductors` (network.py:17-34): the two loaded tables. -/
structure Conductors where
  library : List LibRow
  ratings : List RatRow
  deriving Repr, DecidableEq

/-- Embeds `Conductors.find_library` (network.py:24-28): iterate the
library rows, return the first row whose `ConductorName` equals `name`,
else `None`. -/
def Conductors.find_library (c : Conductors) (name : String) : Option LibRow :=
  c.library.find? (fun conductor => conductor.conductorName == name)

/-- Embeds `Conductors.find_rating` (network.py:30-34): first ratings row
matching both the conductor name and the MOT, else `None`. -/
def Conductors.find_rating (c : Conductors) (name : String) (mot : ℚ) : Option RatRow :=
  c.ratings.find? (fun conductor => conductor.conductorName == name && conductor.mot == mot)

/-- Row of `buses.csv` (fields used by network.py). -/
structure Bus where
  name : Int
  v_nom : ℚ
  x : ℚ
  y : ℚ
  deriving Repr, DecidableEq

/-- Line row of the pypsa subnet (fields read or written by network.py and
contingency.py).  `name` is the pandas index label (`line.name`),
`branch_name`, `conductor`, `MOT`, `bus0`, `bus1` come from `lines.csv`;
`s_nom`, `v_nom`, `Qs`, `Qc`, `Qr` are (re)assigned by `__adjust_s_nom`;
`active` is cleared by the contingency engine. -/
structure Line where
  name : String
  branch_name : String
  conductor : String
  mot : ℚ
  bus0 : Int
  bus1 : Int
  s_nom : ℚ
  v_nom : ℚ
  qs : ℚ
  qc : ℚ
  qr : ℚ
  active : Bool
  deriving Repr, DecidableEq

/-- Load row of the pypsa subnet (fields used by `__adjust_load`). -/
structure Load where
  name : String
  p_set : ℚ
  deriving Repr, DecidableEq

/-- Embeds class `Network` (network.py:48-183).  `lines_t_p0` is the
solver output table `subnet.lines_t["p0"][·]["now"]`, modelled as a total
map from the line's index label to its real power flow. -/
structure Network where
  conductors : Conductors
  buses : List Bus
  lines : List Line
  loads : List Load
  lines_t_p0 : String → ℚ

/-- Embeds `Network.find_bus` (network.py:94-98): first bus row whose
`name` equals `int(name)`, else `None`. -/
def Network.find_bus (n : Network) (name : Int) : Option Bus :=
  n.buses.find? (fun row => row.name == name)

/-- Python `int()` on a float/rational: truncation toward zero. -/
def pyInt (q : ℚ) : Int :=
  if 0 ≤ q then ⌊q⌋ else ⌈q⌉

/-- Result dict built by `Network.__calculate_stress` (network.py:146-154). -/
structure StressResult where
  branch_name : String
  load_a : ℚ
  rated_capacity : ℚ
  actual_capacity : ℚ
  at_risk : Bool
  overcapacity : Bool
  load_percentage : ℚ
  deriving Repr, DecidableEq

/-- Embeds `Network.__calculate_stress` (network.py:134-155).  The rating
lookup may yield `None`; Python then raises a TypeError at
`ratings["RatingMVA_69"]` (the `load_a` read happens first and is total
here, the solver table being modelled as a total map).  Division of
rationals is total (`x / 0 = 0`) where numpy float division would give
`inf`; no claim distinguishes the two since the same division appears on
both sides of every statement. -/
def Network.calculate_stress (network : Network) (line : Line) :
    Except PyError StressResult :=
  let s_nom := line.s_nom
  let v_nom := line.v_nom
  let ratings := network.conductors.find_rating line.conductor line.mot
  let load_a := |network.lines_t_p0 line.name|
  match ratings with
  | none => .error .typeError
  | some ratings =>
    let cap := if pyInt v_nom = 69 then ratings.ratingMVA_69 else ratings.ratingMVA_138
    let at_risk := decide (s_nom > cap)
    let overcap := decide (load_a > cap)
    let load := load_a / cap
    .ok { branch_name := line.branch_name
          load_a := load_a
          rated_capacity := cap
          actual_capacity := s_nom
          at_risk := at_risk
          overcapacity := overcap
          load_percentage := load }

/-- Conductor orientation, the `Direction` keyword of network.py:111/113. -/
inductive Direction where
  | EastWest
  | NorthSouth
  deriving Repr, DecidableEq

/-- Embeds the orientation choice of `Network.__adjust_s_nom`
(network.py:107-113).  As in the source, `x_diff` is
`abs(bus0["x"] - bus0["y"])` — the difference between the two
coordinates of `bus0` — and the strict comparison sends ties to the
`NorthSouth` branch. -/
def direction_of (bus0 bus1 : Bus) : Direction :=
  let x_diff := |bus0.x - bus0.y|
  let y_diff := |bus0.y - bus1.y|
  if x_diff > y_diff then .EastWest else .NorthSouth

/-- Embeds class `PartialConductorParams` (network.py:37-45): the stored
atmospheric keyword arguments.  Their values are opaque to every claim,
so they are kept as an uninterpreted association list. -/
structure PartialConductorParams where
  partials : List (String × ℚ)
  deriving Repr, DecidableEq

/-- Full argument set of `ieee738.ConductorParams` as assembled by
`PartialConductorParams.apply` inside `__adjust_s_nom`
(network.py:115-122). -/
structure ConductorParams where
  atmos : List (String × ℚ)
  direction : Direction
  tc : ℚ
  diameter : ℚ
  tlo : ℚ
  rlo : ℚ
  thi : ℚ
  rhi : ℚ
  deriving Repr, DecidableEq

/-- Embeds `PartialConductorParams.apply` (network.py:43-45): merge the
stored partials with the per-line remainder into a full parameter set. -/
def PartialConductorParams.apply (p : PartialConductorParams)
    (direction : Direction) (tc diameter tlo rlo thi rhi : ℚ) : ConductorParams :=
  { atmos := p.partials, direction := direction, tc := tc, diameter := diameter
    tlo := tlo, rlo := rlo, thi := thi, rhi := rhi }

/-- Abstract stand-in for module `source/ieee738.py`, which is not among
the given sources: the steady-state thermal rating and the three heat
terms of `ieee738.Conductor`, plus a rational stand-in for the float
constant `3**0.5` of network.py:126.  Every theorem that touches it is
quantified over the model, so nothing below depends on its values. -/
structure RatingModel where
  steady_state_thermal_rating : ConductorParams → ℚ
  qs : ConductorParams → ℚ
  qc : ConductorParams → ℚ
  qr : ConductorParams → ℚ
  sqrt3 : ℚ

/-- Embeds `Network.__adjust_s_nom` (network.py:100-132), keeping the
source's raise order: a failed bus lookup surfaces as a TypeError at the
first `bus0["v_nom"]` subscript inside the assert; then the assert
compares the two nominal voltages; then a failed conductor lookup
surfaces as a TypeError at `conductor["CDRAD_in"]` while the parameter
set is built. -/
def Network.adjust_s_nom (model : RatingModel) (network : Network)
    (atmos_params : PartialConductorParams) (line : Line) : Except PyError Line :=
  let conductor := network.conductors.find_library line.conductor
  let bus0 := network.find_bus line.bus0
  let bus1 := network.find_bus line.bus1
  match bus0, bus1 with
  | some bus0, some bus1 =>
    if bus0.v_nom = bus1.v_nom then
      let v_nom := bus0.v_nom
      let direction := direction_of bus0 bus1
      match conductor with
      | none => .error .typeError
      | some conductor =>
        let params := atmos_params.apply direction line.mot (conductor.cdrad_in * 2)
          25 (conductor.res_25c / 5280) 50 (conductor.res_50c / 5280)
        let I := model.steady_state_thermal_rating params
        let ikv := model.sqrt3 * I * (v_nom * 1000) / 1000000
        .ok { line with s_nom := ikv, v_nom := v_nom
                        qs := model.qs params, qc := model.qc params, qr := model.qr params }
    else .error .assertionError
  | _, _ => .error .typeError

/-- Load-shaping constants of the (absent) `source/config.py` module, as
read by `Network.__adjust_load`: `MINIMUM_LOAD_TIME`,
`MAXIMUM_LOAD_TIME`, `LOAD_VARIANCE`.  Kept abstract; the claims
quantify over them. -/
structure LoadCfg where
  minimum_load_time : ℚ
  maximum_load_time : ℚ
  load_variance : ℚ
  deriving Repr, DecidableEq

/-- Rational stand-ins for the float functions of Python's `math` module
used by `__adjust_load` (`math.pi`, `math.sin`).  Abstract: no claim
depends on their values. -/
structure MathEnv where
  piQ : ℚ
  sinQ : ℚ → ℚ

/-- Embeds `Network.__adjust_load` (network.py:157-165): the assert on the
configured load-time window runs first; only then is the sinusoidal
adjustment of `p_set` computed. -/
def Network.adjust_load (menv : MathEnv) (cfg : LoadCfg) (load : Load)
    (hour_of_day : ℚ) : Except PyError Load :=
  if cfg.minimum_load_time < cfg.maximum_load_time then
    let offset := cfg.maximum_load_time - cfg.minimum_load_time
    let angle := ((hour_of_day - offset) / 24) * 2 * menv.piQ
    let p_set_n := load.p_set + load.p_set * menv.sinQ angle * cfg.load_variance
    .ok { load with p_set := p_set_n }
  else .error .assertionError

/-- External flow solver (`subnet.optimize(); subnet.pf()`), an opaque
collaborator: it receives the prepared network and either returns the
per-line power-flow table or raises. -/
structure SolverEnv where
  solve : Network → Except PyError (String → ℚ)

/-- Embeds `Network.apply_atmospherics` (network.py:167-176): shape every
load for the `SunTime` hour, recompute every line's rating, solve, then
classify every line.  Any raise in a row-wise `apply` aborts the whole
call, as in pandas. -/
def Network.apply_atmospherics (menv : MathEnv) (cfg : LoadCfg) (model : RatingModel)
    (senv : SolverEnv) (network : Network) (atmos_params : PartialConductorParams)
    (sunTime : ℚ) : Except PyError (Network × List StressResult) := do
  let loads ← network.loads.mapM (fun load => Network.adjust_load menv cfg load sunTime)
  let network := { network with loads := loads }
  let lines ← network.lines.mapM (fun line =>
    Network.adjust_s_nom model network atmos_params line)
  let network := { network with lines := lines }
  let flows ← senv.solve network
  let network := { network with lines_t_p0 := flows }
  let results ← network.lines.mapM (fun line => network.calculate_stress line)
  return (network, results)

/-- Result dict of one contingency row (contingency.py:204-214 and the
sentinel of contingency.py:230-241): numeric fields are `None` in the
sentinel, hence `Option ℚ` here; `error` is set only by the sentinel. -/
structure ContRow where
  outaged_component : String
  outaged_component_type : String
  affected_branch : String
  load_a : Option ℚ
  rated_capacity : Option ℚ
  actual_capacity : Option ℚ
  at_risk : Bool
  overcapacity : Bool
  load_percentage : Option ℚ
  error : Option PyError
  deriving Repr, DecidableEq

/-- Setting `subnet.lines.loc[component_name, "active"] = False`
(contingency.py:171). -/
def set_line_inactive (network : Network) (component_name : String) : Network :=
  { network with lines := network.lines.map (fun line =>
      if line.name == component_name then { line with active := false } else line) }

/-- Embeds `Contingency._analyze_single_contingency`
(contingency.py:147-241).  `copy.deepcopy` of the base network becomes a
fresh binding with value semantics: every subsequent update rebinds the
copy, never the base.  Lines contingency.py:186 and contingency.py:195
read the attributes `_adjust_s_nom` and `_calculate_stress` of the
copied `Network`, but the class defines those methods with double
underscores, so their mangled names are `_Network__adjust_s_nom` and
`_Network__calculate_stress`; the lambda applied to each line row
therefore raises an AttributeError.  The surrounding `except Exception`
turns any raise into the single `POWER_FLOW_FAILED` sentinel row. -/
def analyze_single_contingency (menv : MathEnv) (cfg : LoadCfg) (senv : SolverEnv)
    (base : Network) (component_type component_name : String)
    (sunTime : ℚ) : List ContRow :=
  let contingency_network := base
  let attempt : Except PyError (List StressResult) := do
    let cn := if component_type == "Line"
      then set_line_inactive contingency_network component_name
      else contingency_network
    let loads ← cn.loads.mapM (fun load =>
      Network.adjust_load menv cfg load sunTime)
    let cn := { cn with loads := loads }
    let lines ← cn.lines.mapM (fun _line =>
      (Except.error (PyError.attributeError "_adjust_s_nom") : Except PyError Line))
    let cn := { cn with lines := lines }
    let flows ← senv.solve cn
    let cn := { cn with lines_t_p0 := flows }
    let stress ← cn.lines.mapM (fun _line =>
      (Except.error (PyError.attributeError "_calculate_stress") :
        Except PyError StressResult))
    return stress
  match attempt with
  | .ok stress_results =>
    (stress_results.filter (fun r => r.overcapacity || r.at_risk)).map (fun r =>
      { outaged_component := component_name
        outaged_component_type := component_type
        affected_branch := r.branch_name
        load_a := some r.load_a
        rated_capacity := some r.rated_capacity
        actual_capacity := some r.actual_capacity
        at_risk := r.at_risk
        overcapacity := r.overcapacity
        load_percentage := some r.load_percentage
        error := none })
  | .error e =>
    [{ outaged_component := component_name
       outaged_component_type := component_type
       affected_branch := "POWER_FLOW_FAILED"
       load_a := none
       rated_capacity := none
       actual_capacity := none
       at_risk := false
       overcapacity := false
       load_percentage := none
       error := some e }]

/-- Embeds the `"Line"` sweep of `Contingency.run_n1_analysis`
(contingency.py:92-145): iterate the base network's line rows, analyze
each outage against the base network, and extend the collected rows when
the candidate contributed any (extending with an empty list is the
identity, so the guard of contingency.py:124 is absorbed).  The second
component is the base network as the sweep leaves it, threaded through
every iteration so that its preservation is a statement, not a
convention. -/
def run_n1_analysis (menv : MathEnv) (cfg : LoadCfg) (senv : SolverEnv)
    (base : Network) (sunTime : ℚ) : List ContRow × Network :=
  base.lines.foldl
    (fun acc component =>
      let results := analyze_single_contingency menv cfg senv acc.2
        "Line" component.name sunTime
      (if results.isEmpty then acc.1 else acc.1 ++ results, acc.2))
    ([], base)

/-- Row collected by the temperature sensitivity sweep (app.py:308-316). -/
structure SensRow where
  temperature : ℚ
  line : String
  load_pct : ℚ
  overcapacity : Bool
  apparent_load : ℚ
  rated_capacity : ℚ
  actual_capacity : ℚ
  deriving Repr, DecidableEq

/-- The `while current <= max_temp` accumulation loop of app.py:284-287,
with an explicit fuel that the caller chooses large enough (the loop
body appends and advances exactly as the source does; once `current`
passes `max_temp` the fuel is irrelevant). -/
def temps_loop : Nat → ℚ → ℚ → ℚ → List ℚ
  | 0, _, _, _ => []
  | fuel + 1, current, max_temp, step =>
    if current ≤ max_temp then current :: temps_loop fuel (current + step) max_temp step
    else []

/-- Fuel bound for `temps_loop`: the loop runs `⌊(max−min)/step⌋ + 1`
times when `min ≤ max` and `0 < step`, which `⌈(max−min)/step⌉ + 1`
dominates. -/
def sweep_fuel (min_temp max_temp step : ℚ) : Nat :=
  (⌈(max_temp - min_temp) / step⌉).toNat + 1

/-- Outcome of `run_temperature_sensitivity_analysis` (app.py:263-325):
whether the step-size warning fired, the step actually used, the sampled
temperatures, the collected rows, and the failed (skipped) samples. -/
structure SweepResult where
  warned : Bool
  step_used : ℚ
  temps : List ℚ
  rows : List SensRow
  failed_temps : List (ℚ × PyError)

/-- Embeds `run_temperature_sensitivity_analysis` (app.py:263-325).  A
requested step below `1.0` is widened to `1.0` with a warning
(app.py:278-280) — `st.warning` is recorded in `warned`, the function
does not fail.  `run1` abstracts the body of one sample:
`network.reset()` followed by `network.apply_atmospherics` at the given
ambient temperature, returning that sample's stress rows or raising.  A
failing sample is appended to `failed_temps` and skipped
(app.py:317-318). -/
def run_temperature_sensitivity_analysis
    (run1 : ℚ → Except PyError (List StressResult))
    (min_temp max_temp step : ℚ) : SweepResult :=
  let warned := if step < 1 then true else false
  let step := if step < 1 then 1 else step
  let temps_list := temps_loop (sweep_fuel min_temp max_temp step) min_temp max_temp step
  let collected := temps_list.foldl
    (fun (acc : List SensRow × List (ℚ × PyError)) temp =>
      match run1 temp with
      | .ok results =>
        (acc.1 ++ results.map (fun r =>
          { temperature := temp
            line := r.branch_name
            load_pct := r.load_percentage * 100
            overcapacity := r.overcapacity
            apparent_load := r.load_a
            rated_capacity := r.rated_capacity
            actual_capacity := r.actual_capacity }), acc.2)
      | .error e => (acc.1, acc.2 ++ [(temp, e)]))
    ([], [])
  { warned := warned
    step_used := step
    temps := temps_list
    rows := collected.1
    failed_temps := collected.2 }

/-! Concrete fixtures used by witnesses and counterexamples. -/

/-- Concrete bus fixture. -/
def busA : Bus := { name := 0, v_nom := 69, x := 0, y := 0 }

/-- Concrete bus fixture. -/
def busB : Bus := { name := 1, v_nom := 69, x := 5, y := 0 }

/-- Concrete library row fixture. -/
def drakeLibRow : LibRow := { conductorName := "DRAKE", cdrad_in := 1, res_25c := 1, res_50c := 2 }

/-- Concrete ratings row fixture: rated 10 MVA at 69 kV, 20 MVA at 138 kV. -/
def drakeRatRow : RatRow := { conductorName := "DRAKE", mot := 75, ratingMVA_69 := 10, ratingMVA_138 := 20 }

/-- Concrete conductor tables fixture. -/
def baseConductors : Conductors := { library := [drakeLibRow], ratings := [drakeRatRow] }

/-- Concrete line fixture: dynamic capacity 50 MVA, flowing 20 MVA below. -/
def lineL0 : Line :=
  { name := "L0", branch_name := "A TO B CKT 1", conductor := "DRAKE", mot := 75
    bus0 := 0, bus1 := 1, s_nom := 50, v_nom := 69
    qs := 0, qc := 0, qr := 0, active := true }

/-- Concrete load fixture. -/
def loadD : Load := { name := "LD0", p_set := 5 }

/-- Concrete network fixture whose solver table reports 20 MVA on every line. -/
def baseNetwork : Network :=
  { conductors := baseConductors, buses := [busA, busB], lines := [lineL0]
    loads := [loadD], lines_t_p0 := fun _ => 20 }

/-- Concrete rating-model fixture (arbitrary values; theorems about the
model quantify over it, fixtures only instantiate). -/
def testModel : RatingModel :=
  { steady_state_thermal_rating := fun _ => 7, qs := fun _ => 1, qc := fun _ => 2
    qr := fun _ => 3, sqrt3 := 173/100 }

/-- Concrete math-environment fixture. -/
def testMathEnv : MathEnv := { piQ := 355/113, sinQ := fun _ => 0 }

/-- Concrete load-shaping configuration satisfying the window invariant. -/
def testCfg : LoadCfg := { minimum_load_time := 4, maximum_load_time := 17, load_variance := 1/10 }

/-- Concrete load-shaping configuration violating the window invariant. -/
def badCfg : LoadCfg := { minimum_load_time := 17, maximum_load_time := 4, load_variance := 1/10 }

/-- Solver fixture that always converges, returning the prepared
network's own flow table. -/
def okSolver : SolverEnv := { solve := fun n => .ok n.lines_t_p0 }

/-- Empty atmospheric partials fixture. -/
def emptyAtmos : PartialConductorParams := { partials := [] }

/-! Claim theorems. -/

/-- C1: for every line classified by `__calculate_stress`, `at_risk`
holds exactly when the dynamic (actual) capacity exceeds the rated
capacity, `overcapacity` exactly when the apparent load exceeds the
rated capacity, and `load_percentage` is apparent load over rated
capacity. -/
theorem calculate_stress_flags_against_rated (network : Network) (line : Line)
    (r : StressResult) (h : network.calculate_stress line = .ok r) :
    (r.at_risk = true ↔ r.actual_capacity > r.rated_capacity) ∧
    (r.overcapacity = true ↔ r.load_a > r.rated_capacity) ∧
    r.load_percentage = r.load_a / r.rated_capacity := by
  unfold Network.calculate_stress at h
  cases hr : network.conductors.find_rating line.conductor line.mot with
  | none => simp [hr] at h
  | some ratings =>
    simp only [hr] at h
    cases h
    simp

/-- Witness for C1 at the concrete fixture network. -/
theorem calculate_stress_flags_against_rated_witness :
    (baseNetwork.calculate_stress lineL0 =
      .ok { branch_name := "A TO B CKT 1", load_a := 20, rated_capacity := 10
            actual_capacity := 50, at_risk := true, overcapacity := true
            load_percentage := 2 }) ∧
    ((true = true ↔ (50 : ℚ) > 10) ∧ (true = true ↔ (20 : ℚ) > 10) ∧ (2 : ℚ) = 20 / 10) := by
  have h : baseNetwork.calculate_stress lineL0 =
      .ok { branch_name := "A TO B CKT 1", load_a := 20, rated_capacity := 10
            actual_capacity := 50, at_risk := true, overcapacity := true
            load_percentage := 2 } := by
    simp [Network.calculate_stress, Conductors.find_rating, baseNetwork,
      baseConductors, drakeRatRow, lineL0, pyInt, List.find?]
    norm_num
  exact ⟨h, calculate_stress_flags_against_rated baseNetwork lineL0 _ h⟩

/-- C5 counterexample: at the fixture line the code sets
`overcapacity := true` although the apparent load (20) does not exceed
the dynamic capacity (`actual_capacity` = 50), and reports
`load_percentage` = 2 although load over dynamic capacity is 20/50; the
flag and the fraction are taken against the rated capacity (10), so the
claim "overcapacity exactly when load exceeds the dynamic capacity, and
load fraction over the dynamic capacity" is false on the code. -/
theorem calculate_stress_dynamic_overcap_counterexample :
    (baseNetwork.calculate_stress lineL0 =
      .ok { branch_name := "A TO B CKT 1", load_a := 20, rated_capacity := 10
            actual_capacity := 50, at_risk := true, overcapacity := true
            load_percentage := 2 }) ∧
    ¬((20 : ℚ) > 50) ∧ (2 : ℚ) ≠ 20 / 50 := by
  refine ⟨?_, by norm_num, by norm_num⟩
  simp [Network.calculate_stress, Conductors.find_rating, baseNetwork,
    baseConductors, drakeRatRow, lineL0, pyInt, List.find?]
  norm_num

/-- C5 amended: for every `LineStressResult`, `overcapacity` holds
exactly when the apparent load exceeds the rated (static) capacity — not
the dynamic one — and the reported load fraction is apparent load
divided by the rated capacity. -/
theorem calculate_stress_overcap_against_rated (network : Network) (line : Line)
    (r : StressResult) (h : network.calculate_stress line = .ok r) :
    (r.overcapacity = true ↔ r.load_a > r.rated_capacity) ∧
    r.load_percentage = r.load_a / r.rated_capacity := by
  unfold Network.calculate_stress at h
  cases hr : network.conductors.find_rating line.conductor line.mot with
  | none => simp [hr] at h
  | some ratings =>
    simp only [hr] at h
    cases h
    simp

/-- Witness for the amended C5 at the fixture network. -/
theorem calculate_stress_overcap_against_rated_witness :
    (baseNetwork.calculate_stress lineL0 =
      .ok { branch_name := "A TO B CKT 1", load_a := 20, rated_capacity := 10
            actual_capacity := 50, at_risk := true, overcapacity := true
            load_percentage := 2 }) ∧
    ((true = true ↔ (20 : ℚ) > 10) ∧ (2 : ℚ) = 20 / 10) := by
  have h : baseNetwork.calculate_stress lineL0 =
      .ok { branch_name := "A TO B CKT 1", load_a := 20, rated_capacity := 10
            actual_capacity := 50, at_risk := true, overcapacity := true
            load_percentage := 2 } := by
    simp [Network.calculate_stress, Conductors.find_rating, baseNetwork,
      baseConductors, drakeRatRow, lineL0, pyInt, List.find?]
    norm_num
  exact ⟨h, calculate_stress_overcap_against_rated baseNetwork lineL0 _ h⟩

/-- Line fixture with the non-integer nominal voltage 69.5 kV. -/
def line95 : Line := { lineL0 with v_nom := 139/2 }

/-- C9 counterexample: at nominal voltage 69.5 the line's voltage does
not equal 69, so the claim ("the 138 kV column for every other nominal
voltage, whatever that voltage is") demands the 138 kV rating (20), but
the code truncates with `int()` and selects the 69 kV rating (10). -/
theorem calculate_stress_rating_column_counterexample :
    (baseNetwork.calculate_stress line95 =
      .ok { branch_name := "A TO B CKT 1", load_a := 20, rated_capacity := 10
            actual_capacity := 50, at_risk := true, overcapacity := true
            load_percentage := 2 }) ∧
    line95.v_nom ≠ 69 ∧ drakeRatRow.ratingMVA_138 = 20 ∧ (10 : ℚ) ≠ 20 := by
  refine ⟨?_, by norm_num [line95, lineL0], by norm_num [drakeRatRow], by norm_num⟩
  simp [Network.calculate_stress, Conductors.find_rating, baseNetwork,
    baseConductors, drakeRatRow, line95, lineL0, pyInt, List.find?]
  norm_num

/-- C9 amended: the rated capacity is taken from the 69 kV column exactly
when the Python `int()` truncation of the line's nominal voltage equals
69, and from the 138 kV column otherwise. -/
theorem calculate_stress_rated_column_by_truncation (network : Network) (line : Line)
    (ratings : RatRow) (r : StressResult)
    (hr : network.conductors.find_rating line.conductor line.mot = some ratings)
    (h : network.calculate_stress line = .ok r) :
    r.rated_capacity =
      if pyInt line.v_nom = 69 then ratings.ratingMVA_69 else ratings.ratingMVA_138 := by
  unfold Network.calculate_stress at h
  simp only [hr] at h
  cases h
  simp

/-- Witness for the amended C9 at the 69.5 kV fixture line. -/
theorem calculate_stress_rated_column_by_truncation_witness :
    (10 : ℚ) = if pyInt ((139 : ℚ)/2) = 69 then (10 : ℚ) else 20 := by
  have hr : baseNetwork.conductors.find_rating line95.conductor line95.mot =
      some drakeRatRow := by
    simp [Conductors.find_rating, baseNetwork, baseConductors, drakeRatRow,
      line95, lineL0, List.find?]
  have h : baseNetwork.calculate_stress line95 =
      .ok { branch_name := "A TO B CKT 1", load_a := 20, rated_capacity := 10
            actual_capacity := 50, at_risk := true, overcapacity := true
            load_percentage := 2 } := by
    simp [Network.calculate_stress, Conductors.find_rating, baseNetwork,
      baseConductors, drakeRatRow, line95, lineL0, pyInt, List.find?]
    norm_num
  have := calculate_stress_rated_column_by_truncation baseNetwork line95 drakeRatRow _ hr h
  simpa [drakeRatRow, line95, lineL0] using this

/-- Bus fixture exercising the tie case of the claimed orientation rule. -/
def busC : Bus := { name := 2, v_nom := 69, x := 2, y := 2 }

/-- Bus fixture exercising the tie case of the claimed orientation rule. -/
def busD : Bus := { name := 3, v_nom := 69, x := 4, y := 0 }

/-- C2 counterexample: for the terminal pair `busA`/`busB` the inter-bus
x-delta (5) strictly exceeds the inter-bus y-delta (0), so the claim
demands `EastWest`, but `__adjust_s_nom` computes
`x_diff = abs(bus0.x - bus0.y)` (= 0) and chooses `NorthSouth`; for the
pair `busC`/`busD` the two inter-bus deltas are equal (2 and 2), so the
claimed tie-break demands `EastWest`, but the code again chooses
`NorthSouth`. -/
theorem direction_of_claim_counterexample :
    (direction_of busA busB = .NorthSouth ∧ |busA.x - busB.x| > |busA.y - busB.y|) ∧
    (direction_of busC busD = .NorthSouth ∧ |busC.x - busD.x| = |busC.y - busD.y|) ∧
    Direction.NorthSouth ≠ Direction.EastWest := by
  refine ⟨⟨?_, ?_⟩, ⟨?_, ?_⟩, by simp⟩
  · simp [direction_of, busA, busB]
  · simp [busA, busB]
  · simp [direction_of, busC, busD]
  · simp [busC, busD]
    norm_num [abs_of_nonpos]

/-- C2 amended: the east-west branch is chosen exactly when
`abs(bus0.x - bus0.y)` — bus0's own coordinate difference, not the
inter-bus x-delta — strictly exceeds `abs(bus0.y - bus1.y)`; when the two
compared quantities are equal the north-south branch is chosen. -/
theorem direction_of_spec (bus0 bus1 : Bus) :
    (direction_of bus0 bus1 = .EastWest ↔ |bus0.x - bus0.y| > |bus0.y - bus1.y|) ∧
    (|bus0.x - bus0.y| = |bus0.y - bus1.y| → direction_of bus0 bus1 = .NorthSouth) := by
  have hx : direction_of bus0 bus1 =
      if |bus0.x - bus0.y| > |bus0.y - bus1.y| then Direction.EastWest
      else Direction.NorthSouth := rfl
  refine ⟨?_, ?_⟩
  · rw [hx]
    split_ifs with h
    · exact iff_of_true rfl h
    · exact iff_of_false (by simp) h
  · intro h
    rw [hx]
    split_ifs with h'
    · exact absurd h' (by simp [h])
    · rfl

/-- Witness for the amended C2: both branches exercised concretely. -/
theorem direction_of_spec_witness :
    (direction_of busC busD = .EastWest ↔ |busC.x - busC.y| > |busC.y - busD.y|) ∧
    (|busA.x - busA.y| = |busA.y - busB.y| → direction_of busA busB = .NorthSouth) ∧
    direction_of busA busB = .NorthSouth := by
  refine ⟨(direction_of_spec busC busD).1, (direction_of_spec busA busB).2, ?_⟩
  exact (direction_of_spec busA busB).2 (by simp [busA, busB])

/-- C10: with both terminal buses found, `__adjust_s_nom` halts with an
assertion failure instead of producing a rating whenever the two nominal
voltages differ; when they agree (and the conductor is found) it
succeeds and uses that common voltage in the MVA conversion
`sqrt(3)·I·(v_nom·1000)/1e6`. -/
theorem adjust_s_nom_requires_equal_v_nom (model : RatingModel) (network : Network)
    (atm : PartialConductorParams) (line : Line) (bus0 bus1 : Bus)
    (h0 : network.find_bus line.bus0 = some bus0)
    (h1 : network.find_bus line.bus1 = some bus1) :
    (bus0.v_nom ≠ bus1.v_nom →
      Network.adjust_s_nom model network atm line = .error .assertionError) ∧
    (∀ conductor : LibRow, bus0.v_nom = bus1.v_nom →
      network.conductors.find_library line.conductor = some conductor →
      Network.adjust_s_nom model network atm line =
        .ok { line with
          s_nom := model.sqrt3 * model.steady_state_thermal_rating
              (atm.apply (direction_of bus0 bus1) line.mot (conductor.cdrad_in * 2)
                25 (conductor.res_25c / 5280) 50 (conductor.res_50c / 5280))
            * (bus0.v_nom * 1000) / 1000000
          v_nom := bus0.v_nom
          qs := model.qs
            (atm.apply (direction_of bus0 bus1) line.mot (conductor.cdrad_in * 2)
              25 (conductor.res_25c / 5280) 50 (conductor.res_50c / 5280))
          qc := model.qc
            (atm.apply (direction_of bus0 bus1) line.mot (conductor.cdrad_in * 2)
              25 (conductor.res_25c / 5280) 50 (conductor.res_50c / 5280))
          qr := model.qr
            (atm.apply (direction_of bus0 bus1) line.mot (conductor.cdrad_in * 2)
              25 (conductor.res_25c / 5280) 50 (conductor.res_50c / 5280)) }) := by
  unfold Network.adjust_s_nom
  simp only [h0, h1]
  constructor
  · intro hne
    rw [if_neg hne]
  · intro conductor heq hc
    rw [if_pos heq]
    simp only [hc, direction_of]

/-- Bus fixture at 138 kV for the voltage-mismatch case. -/
def busE : Bus := { name := 4, v_nom := 138, x := 0, y := 0 }

/-- Line fixture whose terminals land on buses of different voltage. -/
def lineBad : Line := { lineL0 with bus1 := 4 }

/-- Network fixture joining a 69 kV bus to a 138 kV bus. -/
def mismatchNetwork : Network :=
  { conductors := baseConductors, buses := [busA, busE], lines := [lineBad]
    loads := [], lines_t_p0 := fun _ => 0 }

/-- Witness for C10: the mismatched fixture aborts with the assertion
failure, and the matched fixture succeeds with the common 69 kV voltage
in the conversion. -/
theorem adjust_s_nom_requires_equal_v_nom_witness :
    (Network.adjust_s_nom testModel mismatchNetwork emptyAtmos lineBad =
      .error .assertionError) ∧
    (Network.adjust_s_nom testModel baseNetwork emptyAtmos lineL0 =
      .ok { lineL0 with
        s_nom := testModel.sqrt3 * testModel.steady_state_thermal_rating
            (emptyAtmos.apply (direction_of busA busB) lineL0.mot (drakeLibRow.cdrad_in * 2)
              25 (drakeLibRow.res_25c / 5280) 50 (drakeLibRow.res_50c / 5280))
          * (busA.v_nom * 1000) / 1000000
        v_nom := busA.v_nom
        qs := testModel.qs
          (emptyAtmos.apply (direction_of busA busB) lineL0.mot (drakeLibRow.cdrad_in * 2)
            25 (drakeLibRow.res_25c / 5280) 50 (drakeLibRow.res_50c / 5280))
        qc := testModel.qc
          (emptyAtmos.apply (direction_of busA busB) lineL0.mot (drakeLibRow.cdrad_in * 2)
            25 (drakeLibRow.res_25c / 5280) 50 (drakeLibRow.res_50c / 5280))
        qr := testModel.qr
          (emptyAtmos.apply (direction_of busA busB) lineL0.mot (drakeLibRow.cdrad_in * 2)
            25 (drakeLibRow.res_25c / 5280) 50 (drakeLibRow.res_50c / 5280)) }) := by
  constructor
  · refine (adjust_s_nom_requires_equal_v_nom testModel mismatchNetwork emptyAtmos
      lineBad busA busE ?_ ?_).1 ?_
    · simp [Network.find_bus, mismatchNetwork, busA, busE, lineBad, lineL0, List.find?]
    · simp [Network.find_bus, mismatchNetwork, busA, busE, lineBad, lineL0, List.find?]
    · norm_num [busA, busE]
  · refine (adjust_s_nom_requires_equal_v_nom testModel baseNetwork emptyAtmos
      lineL0 busA busB ?_ ?_).2 drakeLibRow ?_ ?_
    · simp [Network.find_bus, baseNetwork, busA, busB, lineL0, List.find?]
    · simp [Network.find_bus, baseNetwork, busA, busB, lineL0, List.find?]
    · norm_num [busA, busB]
    · simp [Conductors.find_library, baseNetwork, baseConductors, drakeLibRow,
        lineL0, List.find?]

/-- Empty conductor tables fixture. -/
def emptyConductors : Conductors := { library := [], ratings := [] }

/-- Network fixture whose conductor tables are missing the line's conductor. -/
def missNetwork : Network :=
  { conductors := emptyConductors, buses := [busA, busB], lines := [lineL0]
    loads := [loadD], lines_t_p0 := fun _ => 20 }

/-- C7 counterexample: an absent conductor name makes `find_library` /
`find_rating` return `None` rather than raising; the enclosing
computations then fail with an uninformative TypeError when the `None`
row is subscripted — not with a lookup error carrying diagnostic
context, for any context string. -/
theorem missing_conductor_counterexample :
    (emptyConductors.find_library "DRAKE" = none) ∧
    (emptyConductors.find_rating "DRAKE" 75 = none) ∧
    (Network.adjust_s_nom testModel missNetwork emptyAtmos lineL0 = .error .typeError) ∧
    (missNetwork.calculate_stress lineL0 = .error .typeError) ∧
    (¬ ∃ context, Network.adjust_s_nom testModel missNetwork emptyAtmos lineL0 =
      .error (.lookupError context)) ∧
    (¬ ∃ context, missNetwork.calculate_stress lineL0 =
      .error (.lookupError context)) := by
  have ha : Network.adjust_s_nom testModel missNetwork emptyAtmos lineL0 =
      .error .typeError := by
    simp [Network.adjust_s_nom, Network.find_bus, Conductors.find_library,
      missNetwork, emptyConductors, busA, busB, lineL0, List.find?]
  have hs : missNetwork.calculate_stress lineL0 = .error .typeError := by
    simp [Network.calculate_stress, Conductors.find_rating, missNetwork,
      emptyConductors, lineL0, List.find?]
  refine ⟨rfl, rfl, ha, hs, ?_, ?_⟩
  · rintro ⟨context, hc⟩
    rw [ha] at hc
    simp at hc
  · rintro ⟨context, hc⟩
    rw [hs] at hc
    simp at hc

/-- C7 amended: when the conductor name is absent from the library (and
the name/MOT pair absent from the ratings table), the lookups return
`None` and the callers fail with a context-free TypeError at the `None`
subscript — the failure is surfaced, but without diagnostic context. -/
theorem missing_lookup_fails_without_context (model : RatingModel) (network : Network)
    (atm : PartialConductorParams) (line : Line) (bus0 bus1 : Bus)
    (h0 : network.find_bus line.bus0 = some bus0)
    (h1 : network.find_bus line.bus1 = some bus1)
    (heq : bus0.v_nom = bus1.v_nom)
    (hlib : network.conductors.find_library line.conductor = none)
    (hrat : network.conductors.find_rating line.conductor line.mot = none) :
    Network.adjust_s_nom model network atm line = .error .typeError ∧
    network.calculate_stress line = .error .typeError := by
  constructor
  · unfold Network.adjust_s_nom
    simp only [h0, h1, hlib]
    rw [if_pos heq]
  · unfold Network.calculate_stress
    simp only [hrat]

/-- Witness for the amended C7 at the missing-conductor fixture. -/
theorem missing_lookup_fails_without_context_witness :
    Network.adjust_s_nom testModel missNetwork emptyAtmos lineL0 = .error .typeError ∧
    missNetwork.calculate_stress lineL0 = .error .typeError := by
  refine missing_lookup_fails_without_context testModel missNetwork emptyAtmos
    lineL0 busA busB ?_ ?_ ?_ rfl rfl
  · simp [Network.find_bus, missNetwork, busA, busB, lineL0, List.find?]
  · simp [Network.find_bus, missNetwork, busA, busB, lineL0, List.find?]
  · norm_num [busA, busB]

/-- C6: whenever the configured minimum-load hour is not strictly below
the configured maximum-load hour, `__adjust_load` raises its assertion
before computing any adjustment, and the whole load-shaping pass of
`apply_atmospherics` (over any non-empty load set) aborts with that
error before any adjusted load is produced. -/
theorem adjust_load_window_guard (menv : MathEnv) (cfg : LoadCfg) (load : Load)
    (hour : ℚ) (h : ¬ cfg.minimum_load_time < cfg.maximum_load_time) :
    Network.adjust_load menv cfg load hour = .error .assertionError ∧
    (∀ (model : RatingModel) (senv : SolverEnv) (network : Network)
      (atm : PartialConductorParams), network.loads ≠ [] →
      Network.apply_atmospherics menv cfg model senv network atm hour =
        .error .assertionError) := by
  have hone : ∀ l : Load, Network.adjust_load menv cfg l hour = .error .assertionError := by
    intro l
    unfold Network.adjust_load
    rw [if_neg h]
  refine ⟨hone load, ?_⟩
  intro model senv network atm hne
  unfold Network.apply_atmospherics
  cases hl : network.loads with
  | nil => exact absurd hl hne
  | cons l ls =>
    rw [List.mapM_cons, hone l]
    rfl

/-- Witness for C6 at the violating configuration fixture. -/
theorem adjust_load_window_guard_witness :
    Network.adjust_load testMathEnv badCfg loadD 12 = .error .assertionError ∧
    Network.apply_atmospherics testMathEnv badCfg testModel okSolver baseNetwork
      emptyAtmos 12 = .error .assertionError := by
  have h := adjust_load_window_guard testMathEnv badCfg loadD 12
    (by norm_num [badCfg])
  exact ⟨h.1, h.2 testModel okSolver baseNetwork emptyAtmos (by simp [baseNetwork])⟩

/-- C3: evaluating one sweep candidate on the fixture network with a
solver that converges (`okSolver` never fails).  The candidate still
produces the single `POWER_FLOW_FAILED` sentinel row, because the
per-line rating pass raises an AttributeError at the nonexistent
attribute `_adjust_s_nom` (the method's mangled name is
`_Network__adjust_s_nom`) before the flow solve is ever reached: the
claim's premise — a candidate whose flow solve fails — is unreachable in
the code as written. -/
theorem contingency_sentinel_despite_converging_solver :
    analyze_single_contingency testMathEnv testCfg okSolver baseNetwork "Line" "L0" 12 =
      [{ outaged_component := "L0", outaged_component_type := "Line"
         affected_branch := "POWER_FLOW_FAILED", load_a := none
         rated_capacity := none, actual_capacity := none, at_risk := false
         overcapacity := false, load_percentage := none
         error := some (.attributeError "_adjust_s_nom") }] ∧
    okSolver.solve baseNetwork = .ok baseNetwork.lines_t_p0 := by
  constructor
  · have hload : Network.adjust_load testMathEnv testCfg { name := "LD0", p_set := 5 } 12 =
        .ok { name := "LD0", p_set := 5 } := by
      unfold Network.adjust_load
      norm_num [testCfg, testMathEnv]
    unfold analyze_single_contingency
    simp [set_line_inactive, baseNetwork, lineL0, loadD, hload,
      List.mapM.loop, Except.instMonad, Except.bind, Except.pure]
  · rfl

/-- Auxiliary fact: the N-1 fold threads the base network through every
iteration unchanged, since each iteration works on its own copy. -/
theorem run_n1_fold_preserves_base (menv : MathEnv) (cfg : LoadCfg) (senv : SolverEnv)
    (sunTime : ℚ) (components : List Line) (acc : List ContRow × Network) :
    (components.foldl
      (fun acc component =>
        let results := analyze_single_contingency menv cfg senv acc.2
          "Line" component.name sunTime
        (if results.isEmpty then acc.1 else acc.1 ++ results, acc.2))
      acc).2 = acc.2 := by
  induction components generalizing acc with
  | nil => rfl
  | cons c cs ih =>
    rw [List.foldl_cons]
    exact ih _

/-- C4: a full N-1 sweep returns the base network exactly as it received
it — every candidate iteration mutates only its own deep copy — so
base-case stress results recomputed from the post-sweep base network
coincide with those computed from the pre-sweep base network. -/
theorem run_n1_analysis_never_mutates_base (menv : MathEnv) (cfg : LoadCfg)
    (senv : SolverEnv) (base : Network) (sunTime : ℚ) :
    (run_n1_analysis menv cfg senv base sunTime).2 = base ∧
    ∀ (model : RatingModel) (atm : PartialConductorParams) (t : ℚ),
      Network.apply_atmospherics menv cfg model senv
        (run_n1_analysis menv cfg senv base sunTime).2 atm t =
      Network.apply_atmospherics menv cfg model senv base atm t := by
  have hb : (run_n1_analysis menv cfg senv base sunTime).2 = base := by
    unfold run_n1_analysis
    exact run_n1_fold_preserves_base menv cfg senv sunTime base.lines ([], base)
  refine ⟨hb, ?_⟩
  intro model atm t
  rw [hb]

/-- Length of the temperature loop is bounded by its fuel. -/
theorem temps_loop_length_le (fuel : Nat) (cur maxT step : ℚ) :
    (temps_loop fuel cur maxT step).length ≤ fuel := by
  induction fuel generalizing cur with
  | zero => simp [temps_loop]
  | succ n ih =>
    unfold temps_loop
    split
    · simpa using ih (cur + step)
    · simp

/-- C8: a temperature-sensitivity sweep over [15, 50] °C requested with
step 0.1 fires the step-size warning and widens the step to the 1 °C
stability floor before executing (no failure — the sweep still runs),
and the executed sweep visits at most `⌈(50−15)/1⌉ + 1` temperature
samples, whatever the per-sample pipeline does. -/
theorem temperature_sweep_widens_step (run1 : ℚ → Except PyError (List StressResult)) :
    (run_temperature_sensitivity_analysis run1 15 50 (1/10)).warned = true ∧
    (run_temperature_sensitivity_analysis run1 15 50 (1/10)).step_used = 1 ∧
    (run_temperature_sensitivity_analysis run1 15 50 (1/10)).temps.length ≤
      (⌈((50 : ℚ) - 15) / 1⌉).toNat + 1 := by
  refine ⟨?_, ?_, ?_⟩
  · unfold run_temperature_sensitivity_analysis
    norm_num
  · unfold run_temperature_sensitivity_analysis
    norm_num
  · have hs : (run_temperature_sensitivity_analysis run1 15 50 (1/10)).temps =
        temps_loop (sweep_fuel 15 50 1) 15 50 1 := by
      unfold run_temperature_sensitivity_analysis
      norm_num
    rw [hs]
    exact temps_loop_length_le _ _ _ _

end AepGrid
